import Mathlib

/-!
Shallow embedding of the honey-pot scam-detection service
(`detection.py`, `extraction.py`, `persona_manager.py`, `agent.py`,
`callback.py`, `main.py`) used to check the specification's claims.

Modelling conventions:
* Python floats carrying confidence scores and similarity ratios are
  modelled as exact rationals (`ℚ`); Python's `round(x, 2)` is modelled
  by `round2` below (round to nearest multiple of 1/100).  No claim in
  scope depends on the tie-breaking direction of rounding.
* External capabilities (the `difflib.SequenceMatcher` similarity ratio,
  the regex entity extractors and the hosted LLM call) are parameters of
  the embedding, gathered in the `Env` structure.
* Logging and timestamps carry no decision-relevant state; timestamps
  are abstract naturals.
-/

namespace HoneyPot

/-- Python's `round(x, 2)`: round to the nearest multiple of 1/100. -/
def round2 (q : ℚ) : ℚ := (round (q * 100) : ℤ) / 100

/-- `detection.py` flag lists are lists of strings such as
`"keyword:otp"`, `"urgency"`, `"threat"`, `"repetition:0.8"`,
`"escalation:final_warning"`. -/
abbrev Flags := List String

/-- Result dictionary of `detect_repetition`. -/
structure RepetitionData where
  is_repetitive : Bool
  similarity : ℚ
  repeated_count : ℕ
  deriving Repr, DecidableEq

/-- Result dictionary of `detect_escalation`. -/
structure EscalationData where
  is_escalating : Bool
  escalation_type : Option String
  urgency_count : ℕ
  threat_count : ℕ
  deriving Repr, DecidableEq

/-- `flag.startswith("keyword:")`. -/
def isKeywordFlag (f : String) : Bool := "keyword:".toList.isPrefixOf f.toList

/-- `keyword_count = len([f for f in flags if f.startswith("keyword:")])`
(`detection.py` line 218). -/
def keyword_count (flags : Flags) : ℕ := (flags.filter isKeywordFlag).length

/-- Decay contribution of the `"urgency"` flag (`detection.py` lines
214-215): `+0.1` if present. -/
def urgency_decay (flags : Flags) : ℚ :=
  if flags.contains "urgency" then 1/10 else 0

/-- Keyword-count decay (`detection.py` lines 218-222):
`+0.15` for three or more keyword flags, `+0.08` for two. -/
def keyword_decay (flags : Flags) : ℚ :=
  if keyword_count flags ≥ 3 then 15/100
  else if keyword_count flags ≥ 2 then 8/100
  else 0

/-- Decay contribution of the `"threat"` flag (`detection.py` lines
225-226): `+0.2` if present. -/
def threat_decay (flags : Flags) : ℚ :=
  if flags.contains "threat" then 2/10 else 0

/-- Repetition decay (`detection.py` lines 229-236):
`+0.1 * similarity`, plus `+0.1` for `repeated_count >= 2`. -/
def repetition_decay (repetition_data : Option RepetitionData) : ℚ :=
  match repetition_data with
  | some rd =>
      if rd.is_repetitive then
        1/10 * rd.similarity + (if rd.repeated_count ≥ 2 then 1/10 else 0)
      else 0
  | none => 0

/-- Escalation decay (`detection.py` lines 239-245): `+0.15` for
`final_warning`, `+0.12` for `repeated_pressure`. -/
def escalation_decay (escalation_data : Option EscalationData) : ℚ :=
  match escalation_data with
  | some ed =>
      if ed.is_escalating then
        if ed.escalation_type = some "final_warning" then 15/100
        else if ed.escalation_type = some "repeated_pressure" then 12/100
        else 0
      else 0
  | none => 0

/-- The additive decay accumulated by `update_confidence`
(`detection.py` lines 211-245), factored into its five contributions in
source order. -/
def decayOf (flags : Flags) (repetition_data : Option RepetitionData)
    (escalation_data : Option EscalationData) : ℚ :=
  urgency_decay flags + keyword_decay flags + threat_decay flags +
    repetition_decay repetition_data + escalation_decay escalation_data

/-- `update_confidence` (`detection.py` lines 198-259):
`new_confidence = round(max(0.0, old_confidence - decay), 2)`. -/
def update_confidence (old_confidence : ℚ) (flags : Flags)
    (repetition_data : Option RepetitionData := none)
    (escalation_data : Option EscalationData := none) : ℚ :=
  round2 (max 0 (old_confidence - decayOf flags repetition_data escalation_data))

/-- `old` is representable with two decimal places (every stored session
confidence is: it starts at 1.0 and every update rounds to 2 decimals). -/
def TwoDecimal (q : ℚ) : Prop := ∃ k : ℤ, q = (k : ℚ) / 100

-- Basic facts about round2

theorem round2_mono {a b : ℚ} (h : a ≤ b) : round2 a ≤ round2 b := by
  unfold round2
  have : round (a * 100) ≤ round (b * 100) := by
    rw [round_eq, round_eq]
    exact Int.floor_mono (by linarith)
  exact div_le_div_of_nonneg_right (by exact_mod_cast this) (by norm_num)

theorem round2_twoDecimal {q : ℚ} (h : TwoDecimal q) : round2 q = q := by
  obtain ⟨k, rfl⟩ := h
  unfold round2
  rw [div_mul_cancel₀ (b := (100 : ℚ)) (k : ℚ) (by norm_num), round_intCast]

theorem round2_zero : round2 0 = 0 := by
  unfold round2; norm_num

/-! ## Lexical detection (`detection.py`) -/

/-- Python's `str.lower()` (character-wise lowercasing). -/
def strLower (s : String) : String := String.mk (s.data.map Char.toLower)

/-- Python's substring operator `needle in hay`. -/
def strContains (hay needle : String) : Bool :=
  decide (needle.toList <:+: hay.toList)

def SCAM_KEYWORDS : List String :=
  ["blocked", "suspended", "verify", "urgent", "immediately",
   "account", "upi", "otp", "kyc", "refund", "prize",
   "final", "warning", "expire", "deactivate", "confirm"]

def URGENCY_WORDS : List String :=
  ["now", "today", "immediately", "within", "asap", "hurry", "quick", "fast"]

def THREAT_WORDS : List String :=
  ["blocked", "suspended", "legal", "terminated", "action", "penalty", "fine"]

def ESCALATION_WORDS : List String :=
  ["final", "last", "ultimate", "warning", "chance"]

/-- `behavior_patterns` dictionary of a session: occurrence counters for
the `"urgency"` and `"threat"` keys (`dict.get(key, 0)` semantics). -/
structure BehaviorPatterns where
  urgency : ℕ
  threat : ℕ
  deriving Repr, DecidableEq

/-- External capabilities of the embedding: the
`difflib.SequenceMatcher(...).ratio()` similarity, the three regex
extractors of `extraction.py`, and the hosted LLM (`call_llm`); `none`
from `llm` models an exception escaping reply generation, which
`main.py` catches. -/
structure Env where
  simFn : String → String → ℚ
  upiFn : String → List String
  phoneFn : String → List String
  urlFn : String → List String
  llm : String → Option String

/-- `calculate_similarity` (`detection.py` lines 20-31). -/
def calculate_similarity (env : Env) (text1 text2 : String) : ℚ :=
  env.simFn (strLower text1) (strLower text2)

/-- Python's `l[-n:]`. -/
def takeLast {α : Type} (n : ℕ) (l : List α) : List α :=
  l.drop (l.length - n)

/-- `detect_repetition` (`detection.py` lines 34-77): similarity of the
message against the last 5 history entries. -/
def detect_repetition (env : Env) (message : String)
    (message_history : List String) (threshold : ℚ := 7/10) : RepetitionData :=
  if message_history.isEmpty then ⟨false, 0, 0⟩
  else
    let recent_messages := takeLast 5 message_history
    let step := fun (acc : ℚ × ℕ) (prev_message : String) =>
      let similarity := calculate_similarity env message prev_message
      (max acc.1 similarity,
       if similarity ≥ threshold then acc.2 + 1 else acc.2)
    let r := recent_messages.foldl step (0, 0)
    { is_repetitive := r.1 ≥ threshold
      similarity := round2 r.1
      repeated_count := r.2 }

/-- `detect_escalation` (`detection.py` lines 80-127). -/
def detect_escalation (message : String)
    (behavior_patterns : BehaviorPatterns) : EscalationData :=
  let message_lower := strLower message
  let has_escalation_words := ESCALATION_WORDS.any (strContains message_lower)
  let urgency_count := behavior_patterns.urgency
  let threat_count := behavior_patterns.threat
  let st : Bool × Option String :=
    if urgency_count ≥ 2 ∨ threat_count ≥ 2 then
      (true, some "repeated_pressure")
    else (false, none)
  let st := if has_escalation_words then (true, some "final_warning") else st
  { is_escalating := st.1
    escalation_type := st.2
    urgency_count := urgency_count
    threat_count := threat_count }

/-- Result dictionary of `detect_scam`. -/
structure Detection where
  is_scam : Bool
  confidence : ℚ
  flags : Flags
  repetition : RepetitionData
  escalation : EscalationData
  deriving Repr

/-- Detection-related configuration (`config.py`), with its defaults. -/
structure Settings where
  scam_confidence_threshold : ℚ := 4/10
  exit_confidence_threshold : ℚ := 4/10
  deriving Repr

def defaultSettings : Settings := {}

/-- `detect_scam` (`detection.py` lines 130-195): builds the flag list
(keywords, urgency, threat, repetition, escalation, in that order),
message confidence `min(1.0, len(flags) * 0.2)` and verdict
`confidence >= scam_confidence_threshold`. -/
def detect_scam (env : Env) (settings : Settings) (message : String)
    (message_history : List String) (behavior_patterns : BehaviorPatterns) :
    Detection :=
  let message_lower := strLower message
  let kwFlags := SCAM_KEYWORDS.filterMap (fun keyword =>
    if strContains message_lower keyword then some ("keyword:" ++ keyword)
    else none)
  let urgFlags := if URGENCY_WORDS.any (strContains message_lower) then
      ["urgency"] else []
  let thrFlags := if THREAT_WORDS.any (strContains message_lower) then
      ["threat"] else []
  let repetition_result := detect_repetition env message message_history
  let repFlags := if repetition_result.is_repetitive then
      ["repetition:" ++ toString repetition_result.similarity] else []
  let escalation_result := detect_escalation message behavior_patterns
  let escFlags := if escalation_result.is_escalating then
      ["escalation:" ++ (escalation_result.escalation_type.getD "None")]
    else []
  let flags := kwFlags ++ urgFlags ++ thrFlags ++ repFlags ++ escFlags
  let confidence := min 1 ((flags.length : ℚ) * (2/10))
  { is_scam := confidence ≥ settings.scam_confidence_threshold
    confidence := round2 confidence
    flags := flags
    repetition := repetition_result
    escalation := escalation_result }

/-! ## Intelligence extraction (`extraction.py`) -/

/-- `ExtractedIntelligence` / the intelligence dictionaries of
`extraction.py`: four deduplicated lists of strings.  Python's
`list(set(...))` is modelled by `List.dedup` (order is irrelevant to
every claim, which are stated up to set equality). -/
structure Intelligence where
  upiIds : List String
  phoneNumbers : List String
  phishingLinks : List String
  suspiciousKeywords : List String
  deriving Repr, DecidableEq

/-- The empty `ExtractedIntelligence` (all defaults). -/
def Intelligence.empty : Intelligence := ⟨[], [], [], []⟩

/-- `merge_intelligence` (`extraction.py` lines 163-181): per-field
`list(set(existing + new))` over the four fixed keys. -/
def merge_intelligence (existing new : Intelligence) : Intelligence where
  upiIds := (existing.upiIds ++ new.upiIds).dedup
  phoneNumbers := (existing.phoneNumbers ++ new.phoneNumbers).dedup
  phishingLinks := (existing.phishingLinks ++ new.phishingLinks).dedup
  suspiciousKeywords := (existing.suspiciousKeywords ++ new.suspiciousKeywords).dedup

/-- `extract_suspicious_keywords` (`extraction.py` lines 108-126):
the `<word>` of every `keyword:<word>` flag, deduplicated. -/
def extract_suspicious_keywords (detected_flags : Flags) : List String :=
  ((detected_flags.filter isKeywordFlag).map
    (fun f => f.drop "keyword:".length)).dedup

/-- `extract_all_intelligence` (`extraction.py` lines 129-160), with the
three regex extractors (`extract_upi_ids`, `extract_phone_numbers`,
`extract_urls`) abstracted as capabilities, per the spec's stated
boundary for regex patterns. -/
def extract_all_intelligence (upiFn phoneFn urlFn : String → List String)
    (text : String) (detection_flags : Flags) : Intelligence where
  upiIds := upiFn text
  phoneNumbers := phoneFn text
  phishingLinks := urlFn text
  suspiciousKeywords := extract_suspicious_keywords detection_flags

/-! ## Personas (`persona_manager.py`) -/

/-- `PersonaType` enum. -/
inductive PersonaType where
  | confused_user
  | nervous_elder
  | over_polite
  | tech_savvy
  deriving Repr, DecidableEq

/-- The `.value` string of each `PersonaType` member. -/
def PersonaType.value : PersonaType → String
  | .confused_user => "confused_user"
  | .nervous_elder => "nervous_elder"
  | .over_polite => "over_polite"
  | .tech_savvy => "tech_savvy"

/-- The `Persona` class: only the fields that feed decisions or the
prompt are carried. -/
structure Persona where
  name : String
  persona_type : PersonaType
  traits : List String
  response_style : String
  min_confidence : ℚ
  max_confidence : ℚ
  deriving Repr, DecidableEq

/-- The `CONFUSED_USER` persona (`persona_manager.py` lines 55-69). -/
def confusedUser : Persona where
  name := "Confused User"
  persona_type := .confused_user
  traits := ["easily confused", "asks for clarification",
             "repeats information back", "uncertain about technical terms",
             "needs step-by-step guidance"]
  response_style := "Ask clarifying questions, express confusion about technical terms, request simpler explanations"
  min_confidence := 7/10
  max_confidence := 1

/-- The `NERVOUS_ELDER` persona (`persona_manager.py` lines 71-85). -/
def nervousElder : Persona where
  name := "Nervous Elder"
  persona_type := .nervous_elder
  traits := ["worried about security", "not tech-savvy",
             "cautious and hesitant", "asks about safety",
             "mentions family members who help with tech"]
  response_style := "Express worry and caution, mention needing to ask family, show hesitation about online actions"
  min_confidence := 5/10
  max_confidence := 7/10

/-- The `OVER_POLITE` persona (`persona_manager.py` lines 87-101). -/
def overPolite : Persona where
  name := "Over-Polite User"
  persona_type := .over_polite
  traits := ["extremely polite", "apologizes often", "thanks repeatedly",
             "deferential to authority", "eager to comply but slow to act"]
  response_style := "Be overly polite, apologize for delays, thank profusely, show eagerness to help while being slow"
  min_confidence := 3/10
  max_confidence := 5/10

/-- The `TECH_SAVVY` persona (`persona_manager.py` lines 103-117). -/
def techSavvy : Persona where
  name := "Tech-Savvy Skeptic"
  persona_type := .tech_savvy
  traits := ["asks technical questions", "requests verification",
             "mentions security concerns", "questions legitimacy subtly",
             "wants official channels"]
  response_style := "Ask for verification, mention official websites, express mild skepticism, request documentation"
  min_confidence := 0
  max_confidence := 3/10

/-- The `PERSONAS` table (`persona_manager.py` lines 54-118), in the
declaration (= dict iteration) order of its keys. -/
def PERSONAS : List Persona := [confusedUser, nervousElder, overPolite, techSavvy]

/-- The first persona of `PERSONAS` whose `[min, max]` band contains
`confidence` (the `for` loop of `select_persona`). -/
def matching_persona (confidence : ℚ) : Option Persona :=
  PERSONAS.find? (fun p =>
    p.min_confidence ≤ confidence ∧ confidence ≤ p.max_confidence)

/-- `PersonaManager.select_persona` (`persona_manager.py` lines
128-156): first matching band wins; fallback to `CONFUSED_USER` if no
band matches.  The `current_persona` argument only feeds logging and
does not affect the returned persona. -/
def select_persona (confidence : ℚ) (current_persona : Option String := none) :
    Persona :=
  let _ := current_persona
  (matching_persona confidence).getD confusedUser

/-- `PersonaManager.get_persona_by_type` (`persona_manager.py` lines
158-164): `PersonaType(p)` lookup, `none` on an unknown string. -/
def get_persona_by_type (persona_type : String) : Option Persona :=
  if persona_type = "confused_user" then some confusedUser
  else if persona_type = "nervous_elder" then some nervousElder
  else if persona_type = "over_polite" then some overPolite
  else if persona_type = "tech_savvy" then some techSavvy
  else none

/-- `PersonaManager.get_exit_message` (`persona_manager.py` lines
219-253): persona-specific fixed table; the first message of the pair is
always selected. -/
def get_exit_message (persona : Persona) (_extracted : Intelligence) : String :=
  match persona.persona_type with
  | .confused_user =>
      "I\x27m getting too confused. I\x27ll visit the branch directly to sort this out."
  | .nervous_elder =>
      "I\x27m feeling very nervous about this. I\x27ll ask my son to help me at the bank."
  | .over_polite =>
      "Thank you so much for your help, but I think I\x27ll visit the branch to be safe. Sorry for the trouble!"
  | .tech_savvy =>
      "I\x27ll verify this through the official website and contact support directly. Thanks."

/-! ## Agent mode/topic/reply (`agent.py`) -/

/-- `decide_mode` (`agent.py` lines 27-35): raises `ValueError` when
`confidence` is outside `[0, 1]`, modelled as `Except.error`. -/
def decide_mode (confidence : ℚ) : Except String String :=
  if ¬(0 ≤ confidence ∧ confidence ≤ 1) then
    .error "confidence must be between 0 and 1"
  else if confidence < 25/100 then .ok "EXIT"
  else if confidence < 5/10 then .ok "DEFLECTION"
  else .ok "NORMAL"

/-- `detect_topic` (`agent.py` lines 38-48). -/
def detect_topic (message : String) : String :=
  let msg := strLower message
  if strContains msg "fee" || strContains msg "payment" then "PAYMENT"
  else if strContains msg "otp" then "OTP"
  else if strContains msg "link" || strContains msg "click" then "LINK"
  else if strContains msg "bank" || strContains msg "upi" then "BANK"
  else "GENERAL"

/-- `Persona.get_prompt_context` (`persona_manager.py` lines 41-50). -/
def get_prompt_context (persona : Persona) : String :=
  let traits_str := String.intercalate ", " persona.traits
  "\nPersona: " ++ persona.name ++
  "\nCharacteristics: " ++ traits_str ++
  "\nResponse Style: " ++ persona.response_style ++
  "\n\nYou must embody this persona completely. Your responses should naturally reflect these traits.\n"

/-- `PersonaManager.build_persona_prompt` (`persona_manager.py` lines
166-217). -/
def build_persona_prompt (persona : Persona) (topic mode scammer_message : String) :
    String :=
  let persona_context := get_prompt_context persona
  let mode_instruction :=
    if mode = "NORMAL" then "Engage naturally while staying in character."
    else if mode = "DEFLECTION" then
      "Show hesitation and ask for time to think or consult someone."
    else if mode = "EXIT" then
      "Express intention to handle this through official channels or in person."
    else "Engage naturally while staying in character."
  "\n" ++ persona_context ++
  "\n\nConversation Context:\n- Topic: " ++ topic ++
  "\n- Current Mode: " ++ mode ++
  "\n- Mode Instruction: " ++ mode_instruction ++
  "\n\nScammer\x27s Message:\n\"" ++ scammer_message ++ "\"" ++
  "\n\nImportant Rules:\n1. Stay completely in character as " ++ persona.name ++
  "\n2. Keep response under 2 short sentences\n3. Sound natural and human" ++
  "\n4. Do NOT accuse of scam or mention fraud\n5. Show the personality traits naturally" ++
  "\n6. Ask relevant questions or show appropriate reactions" ++
  "\n\nGenerate ONE reply only as " ++ persona.name ++ ":\n"

/-- `generate_reply` (`agent.py` lines 83-129): select persona, derive
topic and mode, build the prompt and call the LLM.  The result is the
pair `(reply text, persona type value)`; `none` models an exception
escaping (a `ValueError` from `decide_mode`, or any fault in the LLM
call path), which the orchestrator catches. -/
def generate_reply (env : Env) (confidence : ℚ) (last_message : String)
    (current_persona : Option String) (_extracted : Intelligence) :
    Option (String × String) :=
  let persona := select_persona confidence current_persona
  let topic := detect_topic last_message
  match decide_mode confidence with
  | .error _ => none
  | .ok mode =>
    let prompt := build_persona_prompt persona topic mode last_message
    (env.llm prompt).map (fun reply => (reply, persona.persona_type.value))

/-- `generate_exit_message` (`agent.py` lines 132-166): look up the
current persona (falling back to `select_persona(0.2)` when no persona,
and to a fixed phrase when the persona string is unknown). -/
def generate_exit_message (current_persona : Option String)
    (extracted_intelligence : Intelligence) : String :=
  let persona : Option Persona :=
    match current_persona with
    | some p => if p ≠ "" then get_persona_by_type p
                else some (select_persona (2/10))
    | none => some (select_persona (2/10))
  match persona with
  | none => "I will visit the bank branch directly. Thank you."
  | some per => get_exit_message per extracted_intelligence

/-! ## Sessions and the orchestrator (`models.py`, `main.py`) -/

/-- One record of `session.persona_history`
(`{"from": ..., "to": ..., "turn": ..., "confidence": ...}`). -/
structure PersonaTransition where
  fromPersona : Option String
  toPersona : String
  turn : ℕ
  confidence : ℚ
  deriving Repr, DecidableEq

/-- `SessionData` (`models.py` lines 76-110); timestamps are abstract
naturals. -/
structure SessionData where
  confidence : ℚ
  turns : ℕ
  completed : Bool
  extracted : Intelligence
  created_at : ℕ
  last_activity : ℕ
  current_persona : Option String
  persona_history : List PersonaTransition
  behavior_patterns : BehaviorPatterns
  message_history : List String
  deriving Repr

/-- The fresh session created on first sight of a session id
(`main.py` lines 458-467 together with the `SessionData` defaults). -/
def newSession (now : ℕ) : SessionData where
  confidence := 1
  turns := 0
  completed := false
  extracted := .empty
  created_at := now
  last_activity := now
  current_persona := none
  persona_history := []
  behavior_patterns := ⟨0, 0⟩
  message_history := []

/-- `MessageResponse` (`models.py` lines 44-52). -/
structure MessageResponse where
  status : String
  reply : Option String
  confidence : ℚ
  session_id : String
  turns : ℕ
  agent_engaged : Bool
  scam_detected : Bool
  deriving Repr

/-- The `should_exit` closure of `handle_message` (`main.py` lines
547-566), evaluated on the already-updated session. -/
def should_exit (settings : Settings) (session : SessionData) :
    Bool × Option String :=
  if session.confidence ≤ settings.exit_confidence_threshold then
    (true, some "confidence_threshold")
  else
    let has_critical_intel :=
      session.extracted.upiIds.length > 0 ∨
      session.extracted.phoneNumbers.length > 0 ∨
      session.extracted.phishingLinks.length > 0
    if has_critical_intel ∧ session.turns ≥ 3 then
      (true, some "intelligence_collected")
    else if session.turns ≥ 15 then
      (true, some "max_turns_reached")
    else (false, none)

/-- The neutral fallback substituted when reply generation raises
(`main.py` line 622). -/
def fallbackReply : String := "I\x27m not sure I understand. Can you explain more?"

/-- The bounded history append of `main.py` lines 472-475: push the
message, keep the last 10 entries. -/
def boundedAppend (message_history : List String) (message_text : String) :
    List String :=
  let hist := message_history ++ [message_text]
  if hist.length > 10 then takeLast 10 hist else hist

/-- Persona-change tracking (`main.py` lines 606-614): when the
newly-returned persona differs from `session.current_persona`, append a
`{from, to, turn, confidence}` record and switch. -/
def track_persona (session : SessionData) (new_persona : String) : SessionData :=
  if some new_persona ≠ session.current_persona then
    { session with
      persona_history := session.persona_history ++
        [⟨session.current_persona, new_persona, session.turns, session.confidence⟩]
      current_persona := some new_persona }
  else session

/-- The session mutations of a scam-flagged turn before the exit
decision (`main.py` lines 522-542): behavior-pattern counters,
confidence decay, extraction merge, turn counter. -/
def scam_session_update (env : Env) (message_text : String)
    (s1 : SessionData) (detection : Detection) : SessionData :=
  let bp := s1.behavior_patterns
  let bp := if detection.flags.contains "urgency" then
      { bp with urgency := bp.urgency + 1 } else bp
  let bp := if detection.flags.contains "threat" then
      { bp with threat := bp.threat + 1 } else bp
  let conf := update_confidence s1.confidence detection.flags
    (some detection.repetition) (some detection.escalation)
  let new_intelligence := extract_all_intelligence env.upiFn env.phoneFn
    env.urlFn message_text detection.flags
  { s1 with
    behavior_patterns := bp
    confidence := conf
    extracted := merge_intelligence s1.extracted new_intelligence
    turns := s1.turns + 1 }

/-- The engaged half of a scam-flagged turn (`main.py` lines 544-643),
on the already-updated session: exit decision, callback + completion +
termination message on exit, otherwise generated reply with persona
tracking and exception fallback. -/
def engage (env : Env) (settings : Settings) (session_id message_text : String)
    (s2 : SessionData) : SessionData × MessageResponse × Bool :=
  let ex := should_exit settings s2
  if ex.1 ∧ ¬s2.completed then
    -- exit: callback, completion, termination reply (lines 570-595)
    let s3 := { s2 with completed := true }
    let reply := generate_exit_message s2.current_persona s2.extracted
    (s3,
     { status := "success", reply := some reply, confidence := s3.confidence,
       session_id := session_id, turns := s3.turns,
       agent_engaged := true, scam_detected := true },
     true)
  else
    -- continuing: generated reply with persona tracking (lines 596-622)
    match generate_reply env s2.confidence message_text s2.current_persona
      s2.extracted with
    | some rp =>
      let s3 := track_persona s2 rp.2
      (s3,
       { status := "success", reply := some rp.1, confidence := s3.confidence,
         session_id := session_id, turns := s3.turns,
         agent_engaged := true, scam_detected := true },
       false)
    | none =>
      (s2,
       { status := "success", reply := some fallbackReply,
         confidence := s2.confidence, session_id := session_id,
         turns := s2.turns, agent_engaged := true, scam_detected := true },
       false)

/-- One turn of the `/honeypot/message` endpoint (`main.py` lines
423-643) on an already-loaded session.  Returns the mutated session,
the response, and whether `send_final_callback` was invoked this turn. -/
def handle_message (env : Env) (settings : Settings) (session_id : String)
    (message_text : String) (now : ℕ) (session0 : SessionData) :
    SessionData × MessageResponse × Bool :=
  -- session.update_activity(); bounded history append (keep last 10)
  let hist := boundedAppend session0.message_history message_text
  let s1 := { session0 with last_activity := now, message_history := hist }
  -- detection over history excluding the current message
  let detection := detect_scam env settings message_text hist.dropLast
    s1.behavior_patterns
  if ¬detection.is_scam then
    -- PASS-THROUGH MODE (main.py lines 489-506)
    (s1,
     { status := "success", reply := none, confidence := 1,
       session_id := session_id, turns := s1.turns,
       agent_engaged := false, scam_detected := false },
     false)
  else
    engage env settings session_id message_text
      (scam_session_update env message_text s1 detection)

/-- Fold `handle_message` over a list of timestamped inbound messages,
returning the final session and the number of turns on which
`send_final_callback` fired. -/
def runSession (env : Env) (settings : Settings) (session_id : String) :
    SessionData → List (String × ℕ) → SessionData × ℕ
  | s, [] => (s, 0)
  | s, (msg, now) :: rest =>
    let r := handle_message env settings session_id msg now s
    let rec' := runSession env settings session_id r.1 rest
    (rec'.1, (if r.2.2 then 1 else 0) + rec'.2)

/-! ## Helper lemmas: decay and confidence bounds -/

theorem round2_result_twoDecimal (q : ℚ) : TwoDecimal (round2 q) :=
  ⟨round (q * 100), rfl⟩

theorem urgency_decay_nonneg (flags : Flags) : 0 ≤ urgency_decay flags := by
  unfold urgency_decay; split <;> norm_num

theorem keyword_decay_nonneg (flags : Flags) : 0 ≤ keyword_decay flags := by
  unfold keyword_decay; split_ifs <;> norm_num

theorem threat_decay_nonneg (flags : Flags) : 0 ≤ threat_decay flags := by
  unfold threat_decay; split <;> norm_num

theorem repetition_decay_nonneg (rep : Option RepetitionData)
    (h : ∀ rd, rep = some rd → 0 ≤ rd.similarity) : 0 ≤ repetition_decay rep := by
  cases rep with
  | none => simp [repetition_decay]
  | some rd =>
    have hs := h rd rfl
    simp only [repetition_decay]
    split_ifs <;> nlinarith

theorem escalation_decay_nonneg (esc : Option EscalationData) :
    0 ≤ escalation_decay esc := by
  cases esc with
  | none => simp [escalation_decay]
  | some ed => simp only [escalation_decay]; split_ifs <;> norm_num

theorem decayOf_nonneg (flags : Flags) (rep : Option RepetitionData)
    (esc : Option EscalationData)
    (h : ∀ rd, rep = some rd → 0 ≤ rd.similarity) :
    0 ≤ decayOf flags rep esc := by
  unfold decayOf
  have h1 := urgency_decay_nonneg flags
  have h2 := keyword_decay_nonneg flags
  have h3 := threat_decay_nonneg flags
  have h4 := repetition_decay_nonneg rep h
  have h5 := escalation_decay_nonneg esc
  linarith

theorem update_confidence_le {old : ℚ} (flags : Flags)
    (rep : Option RepetitionData) (esc : Option EscalationData)
    (h0 : 0 ≤ old) (h2 : TwoDecimal old)
    (hd : 0 ≤ decayOf flags rep esc) :
    update_confidence old flags rep esc ≤ old := by
  unfold update_confidence
  calc round2 (max 0 (old - decayOf flags rep esc))
      ≤ round2 old := round2_mono (max_le h0 (by linarith))
    _ = old := round2_twoDecimal h2

theorem update_confidence_nonneg (old : ℚ) (flags : Flags)
    (rep : Option RepetitionData) (esc : Option EscalationData) :
    0 ≤ update_confidence old flags rep esc := by
  unfold update_confidence
  calc (0 : ℚ) = round2 0 := round2_zero.symm
    _ ≤ _ := round2_mono (le_max_left 0 _)

theorem update_confidence_le_one {old : ℚ} (flags : Flags)
    (rep : Option RepetitionData) (esc : Option EscalationData)
    (h1 : old ≤ 1) (hd : 0 ≤ decayOf flags rep esc) :
    update_confidence old flags rep esc ≤ 1 := by
  unfold update_confidence
  calc round2 (max 0 (old - decayOf flags rep esc))
      ≤ round2 1 := round2_mono (max_le (by norm_num) (by linarith))
    _ = 1 := round2_twoDecimal ⟨100, by norm_num⟩

/-- The running maximum in `detect_repetition` never drops below its
start value. -/
theorem foldl_max_start (env : Env) (message : String) (threshold : ℚ)
    (l : List String) (a : ℚ × ℕ) :
    a.1 ≤ (l.foldl (fun (acc : ℚ × ℕ) (prev_message : String) =>
      let similarity := calculate_similarity env message prev_message
      (max acc.1 similarity,
       if similarity ≥ threshold then acc.2 + 1 else acc.2)) a).1 := by
  induction l generalizing a with
  | nil => exact le_refl _
  | cons x xs ih =>
    exact le_trans (le_max_left _ _) (ih _)

/-- `detect_repetition` always reports a non-negative similarity (the
running maximum starts at 0 and the result is rounded monotonically). -/
theorem detect_repetition_similarity_nonneg (env : Env) (message : String)
    (message_history : List String) (threshold : ℚ) :
    0 ≤ (detect_repetition env message message_history threshold).similarity := by
  unfold detect_repetition
  split
  · norm_num
  · have h := foldl_max_start env message threshold
      (takeLast 5 message_history) (0, 0)
    calc (0 : ℚ) = round2 0 := round2_zero.symm
      _ ≤ _ := round2_mono h

/-! ## Helper lemmas: branch analysis of a turn -/

theorem track_persona_confidence (s : SessionData) (p : String) :
    (track_persona s p).confidence = s.confidence := by
  unfold track_persona; split <;> rfl

theorem track_persona_turns (s : SessionData) (p : String) :
    (track_persona s p).turns = s.turns := by
  unfold track_persona; split <;> rfl

theorem track_persona_completed (s : SessionData) (p : String) :
    (track_persona s p).completed = s.completed := by
  unfold track_persona; split <;> rfl

theorem scam_session_update_confidence (env : Env) (msg : String)
    (s1 : SessionData) (d : Detection) :
    (scam_session_update env msg s1 d).confidence =
      update_confidence s1.confidence d.flags (some d.repetition)
        (some d.escalation) := rfl

theorem scam_session_update_completed (env : Env) (msg : String)
    (s1 : SessionData) (d : Detection) :
    (scam_session_update env msg s1 d).completed = s1.completed := rfl

theorem detect_scam_repetition (env : Env) (settings : Settings)
    (msg : String) (hist : List String) (bp : BehaviorPatterns) :
    (detect_scam env settings msg hist bp).repetition =
      detect_repetition env msg hist (7/10) := rfl

theorem engage_confidence (env : Env) (settings : Settings)
    (sid msg : String) (s2 : SessionData) :
    (engage env settings sid msg s2).1.confidence = s2.confidence := by
  unfold engage
  split <;> dsimp only <;> split <;> simp [track_persona_confidence]

theorem engage_turns (env : Env) (settings : Settings)
    (sid msg : String) (s2 : SessionData) :
    (engage env settings sid msg s2).1.turns = s2.turns := by
  unfold engage
  split <;> dsimp only <;> split <;> simp [track_persona_turns]

theorem engage_completed_mono (env : Env) (settings : Settings)
    (sid msg : String) (s2 : SessionData) (h : s2.completed = true) :
    (engage env settings sid msg s2).1.completed = true := by
  unfold engage
  split <;> dsimp only <;> split <;> simp [track_persona_completed, h]

theorem engage_no_callback_of_completed (env : Env) (settings : Settings)
    (sid msg : String) (s2 : SessionData) (h : s2.completed = true) :
    (engage env settings sid msg s2).2.2 = false := by
  unfold engage
  split <;> dsimp only <;> split <;> simp_all

theorem engage_callback_completed (env : Env) (settings : Settings)
    (sid msg : String) (s2 : SessionData) :
    (engage env settings sid msg s2).2.2 = true →
    (engage env settings sid msg s2).1.completed = true := by
  unfold engage
  split <;> dsimp only <;> split <;> simp_all

theorem engage_response (env : Env) (settings : Settings)
    (sid msg : String) (s2 : SessionData) :
    (engage env settings sid msg s2).2.1.agent_engaged = true ∧
    (engage env settings sid msg s2).2.1.reply.isSome = true ∧
    (engage env settings sid msg s2).2.1.scam_detected = true := by
  unfold engage
  split <;> dsimp only <;> split <;> exact ⟨rfl, rfl, rfl⟩

/-- Pass-through branch equation: a non-scam verdict only refreshes
`last_activity` and the bounded message history, and returns the
constant pass-through response. -/
theorem handle_message_pass (env : Env) (settings : Settings)
    (sid msg : String) (now : ℕ) (s : SessionData)
    (h : (detect_scam env settings msg
      (boundedAppend s.message_history msg).dropLast
      s.behavior_patterns).is_scam = false) :
    handle_message env settings sid msg now s =
      ({ s with last_activity := now
                message_history := boundedAppend s.message_history msg },
       { status := "success", reply := none, confidence := 1,
         session_id := sid, turns := s.turns,
         agent_engaged := false, scam_detected := false },
       false) := by
  simp only [handle_message, h]
  simp

/-- Scam branch equation: the turn is the engage step on the updated
session. -/
theorem handle_message_scam (env : Env) (settings : Settings)
    (sid msg : String) (now : ℕ) (s : SessionData)
    (h : (detect_scam env settings msg
      (boundedAppend s.message_history msg).dropLast
      s.behavior_patterns).is_scam = true) :
    handle_message env settings sid msg now s =
      engage env settings sid msg
        (scam_session_update env msg
          { s with last_activity := now
                   message_history := boundedAppend s.message_history msg }
          (detect_scam env settings msg
            (boundedAppend s.message_history msg).dropLast
            s.behavior_patterns)) := by
  simp only [handle_message, h]
  simp

/-- Results of `update_confidence` are two-decimal values. -/
theorem update_confidence_twoDecimal (old : ℚ) (flags : Flags)
    (rep : Option RepetitionData) (esc : Option EscalationData) :
    TwoDecimal (update_confidence old flags rep esc) :=
  round2_result_twoDecimal _

/-- The invariant every stored session confidence satisfies: in `[0,1]`
and representable with two decimals. -/
def SessionInv (s : SessionData) : Prop :=
  0 ≤ s.confidence ∧ s.confidence ≤ 1 ∧ TwoDecimal s.confidence

theorem newSession_inv (now : ℕ) : SessionInv (newSession now) :=
  ⟨by norm_num [newSession], by norm_num [newSession],
   ⟨100, by norm_num [newSession]⟩⟩

/-- The repetition result handed to `update_confidence` inside a turn
carries a non-negative similarity. -/
theorem detection_repetition_nonneg (env : Env) (settings : Settings)
    (msg : String) (hist : List String) (bp : BehaviorPatterns) :
    ∀ rd, some (detect_scam env settings msg hist bp).repetition = some rd →
      0 ≤ rd.similarity := by
  rintro rd hrd
  injection hrd with h
  subst h
  rw [detect_scam_repetition]
  exact detect_repetition_similarity_nonneg env msg hist (7/10)

/-- Stored confidence can only decrease on any turn, and the invariant
is preserved. -/
theorem handle_message_confidence_step (env : Env) (settings : Settings)
    (sid msg : String) (now : ℕ) (s : SessionData) (hInv : SessionInv s) :
    (handle_message env settings sid msg now s).1.confidence ≤ s.confidence ∧
    SessionInv (handle_message env settings sid msg now s).1 := by
  obtain ⟨h0, h1, h2⟩ := hInv
  cases hsc : (detect_scam env settings msg
      (boundedAppend s.message_history msg).dropLast
      s.behavior_patterns).is_scam with
  | false =>
    rw [handle_message_pass env settings sid msg now s hsc]
    exact ⟨le_refl _, h0, h1, h2⟩
  | true =>
    rw [handle_message_scam env settings sid msg now s hsc]
    have hconf : (engage env settings sid msg
        (scam_session_update env msg
          { s with last_activity := now
                   message_history := boundedAppend s.message_history msg }
          (detect_scam env settings msg
            (boundedAppend s.message_history msg).dropLast
            s.behavior_patterns))).1.confidence =
        update_confidence s.confidence
          (detect_scam env settings msg
            (boundedAppend s.message_history msg).dropLast
            s.behavior_patterns).flags
          (some (detect_scam env settings msg
            (boundedAppend s.message_history msg).dropLast
            s.behavior_patterns).repetition)
          (some (detect_scam env settings msg
            (boundedAppend s.message_history msg).dropLast
            s.behavior_patterns).escalation) := by
      rw [engage_confidence, scam_session_update_confidence]
    have hrep := detection_repetition_nonneg env settings msg
      (boundedAppend s.message_history msg).dropLast s.behavior_patterns
    have hd := decayOf_nonneg
      (detect_scam env settings msg
        (boundedAppend s.message_history msg).dropLast s.behavior_patterns).flags
      (some (detect_scam env settings msg
        (boundedAppend s.message_history msg).dropLast s.behavior_patterns).repetition)
      (some (detect_scam env settings msg
        (boundedAppend s.message_history msg).dropLast s.behavior_patterns).escalation)
      hrep
    constructor
    · rw [hconf]
      exact update_confidence_le _ _ _ h0 h2 hd
    · unfold SessionInv
      rw [hconf]
      exact ⟨update_confidence_nonneg _ _ _ _,
        update_confidence_le_one _ _ _ h1 hd,
        update_confidence_twoDecimal _ _ _ _⟩

/-- Along any sequence of turns, the stored confidence is
non-increasing and stays in the invariant. -/
theorem runSession_confidence (env : Env) (settings : Settings)
    (sid : String) (s : SessionData) (msgs : List (String × ℕ))
    (hInv : SessionInv s) :
    (runSession env settings sid s msgs).1.confidence ≤ s.confidence ∧
    SessionInv (runSession env settings sid s msgs).1 := by
  induction msgs generalizing s with
  | nil => exact ⟨le_refl _, hInv⟩
  | cons m rest ih =>
    have hstep := handle_message_confidence_step env settings sid m.1 m.2 s hInv
    have hrest := ih _ hstep.2
    exact ⟨le_trans hrest.1 hstep.1, hrest.2⟩

/-- The `completed` flag is never reset by a turn. -/
theorem handle_message_completed_mono (env : Env) (settings : Settings)
    (sid msg : String) (now : ℕ) (s : SessionData) (h : s.completed = true) :
    (handle_message env settings sid msg now s).1.completed = true := by
  cases hsc : (detect_scam env settings msg
      (boundedAppend s.message_history msg).dropLast
      s.behavior_patterns).is_scam with
  | false => rw [handle_message_pass env settings sid msg now s hsc]; exact h
  | true =>
    rw [handle_message_scam env settings sid msg now s hsc]
    exact engage_completed_mono _ _ _ _ _ (by rw [scam_session_update_completed]; exact h)

/-- No callback fires on a turn of an already-completed session. -/
theorem handle_message_no_callback_of_completed (env : Env)
    (settings : Settings) (sid msg : String) (now : ℕ) (s : SessionData)
    (h : s.completed = true) :
    (handle_message env settings sid msg now s).2.2 = false := by
  cases hsc : (detect_scam env settings msg
      (boundedAppend s.message_history msg).dropLast
      s.behavior_patterns).is_scam with
  | false => rw [handle_message_pass env settings sid msg now s hsc]
  | true =>
    rw [handle_message_scam env settings sid msg now s hsc]
    exact engage_no_callback_of_completed _ _ _ _ _
      (by rw [scam_session_update_completed]; exact h)

/-- A turn that fires the callback leaves the session completed. -/
theorem handle_message_callback_completed (env : Env) (settings : Settings)
    (sid msg : String) (now : ℕ) (s : SessionData)
    (h : (handle_message env settings sid msg now s).2.2 = true) :
    (handle_message env settings sid msg now s).1.completed = true := by
  cases hsc : (detect_scam env settings msg
      (boundedAppend s.message_history msg).dropLast
      s.behavior_patterns).is_scam with
  | false => rw [handle_message_pass env settings sid msg now s hsc] at h; cases h
  | true =>
    rw [handle_message_scam env settings sid msg now s hsc] at h ⊢
    exact engage_callback_completed _ _ _ _ _ h

/-- Along any sequence of turns, the callback fires at most once (and
never on a session that starts completed). -/
theorem runSession_callback_bound (env : Env) (settings : Settings)
    (sid : String) (s : SessionData) (msgs : List (String × ℕ)) :
    (runSession env settings sid s msgs).2 ≤
      (if s.completed then 0 else 1) := by
  induction msgs generalizing s with
  | nil => simp [runSession]
  | cons m rest ih =>
    have hrun : (runSession env settings sid s (m :: rest)).2 =
        (if (handle_message env settings sid m.1 m.2 s).2.2 = true
          then 1 else 0) +
        (runSession env settings sid
          (handle_message env settings sid m.1 m.2 s).1 rest).2 := rfl
    have hrest := ih (handle_message env settings sid m.1 m.2 s).1
    rw [hrun]
    by_cases hc : s.completed = true
    · rw [handle_message_no_callback_of_completed env settings sid m.1 m.2 s hc]
        at *
      rw [handle_message_completed_mono env settings sid m.1 m.2 s hc] at hrest
      simp only [if_true] at hrest
      simp [hc]
      omega
    · cases hcb : (handle_message env settings sid m.1 m.2 s).2.2 with
      | true =>
        rw [handle_message_callback_completed env settings sid m.1 m.2 s hcb]
          at hrest
        simp only [if_true] at hrest
        simp [hcb, hc]
        omega
      | false =>
        have h1 : (runSession env settings sid
            (handle_message env settings sid m.1 m.2 s).1 rest).2 ≤ 1 :=
          le_trans hrest (by split <;> omega)
        simp [hcb, hc]
        omega

/-! ## Helper lemmas: persona bands -/

theorem matching_persona_band0 {c : ℚ} (h7 : 7/10 ≤ c) (h1 : c ≤ 1) :
    matching_persona c = some confusedUser := by
  unfold matching_persona PERSONAS
  rw [List.find?_cons_of_pos]
  simp [confusedUser, h7, h1]

theorem matching_persona_band1 {c : ℚ} (h5 : 5/10 ≤ c) (h7 : c < 7/10) :
    matching_persona c = some nervousElder := by
  unfold matching_persona PERSONAS
  rw [List.find?_cons_of_neg, List.find?_cons_of_pos]
  · simp only [nervousElder, decide_eq_true_eq]
    exact ⟨h5, le_of_lt h7⟩
  · simp only [confusedUser, Bool.not_eq_true, decide_eq_false_iff_not]
    intro hh
    linarith [hh.1]

theorem matching_persona_band2 {c : ℚ} (h3 : 3/10 ≤ c) (h5 : c < 5/10) :
    matching_persona c = some overPolite := by
  unfold matching_persona PERSONAS
  rw [List.find?_cons_of_neg, List.find?_cons_of_neg, List.find?_cons_of_pos]
  · simp only [overPolite, decide_eq_true_eq]
    exact ⟨h3, le_of_lt h5⟩
  · simp only [nervousElder, Bool.not_eq_true, decide_eq_false_iff_not]
    intro hh; linarith [hh.1]
  · simp only [confusedUser, Bool.not_eq_true, decide_eq_false_iff_not]
    intro hh; linarith [hh.1]

theorem matching_persona_band3 {c : ℚ} (h0 : 0 ≤ c) (h3 : c < 3/10) :
    matching_persona c = some techSavvy := by
  unfold matching_persona PERSONAS
  rw [List.find?_cons_of_neg, List.find?_cons_of_neg, List.find?_cons_of_neg,
    List.find?_cons_of_pos]
  · simp only [techSavvy, decide_eq_true_eq]
    exact ⟨h0, le_of_lt h3⟩
  · simp only [overPolite, Bool.not_eq_true, decide_eq_false_iff_not]
    intro hh; linarith [hh.1]
  · simp only [nervousElder, Bool.not_eq_true, decide_eq_false_iff_not]
    intro hh; linarith [hh.1]
  · simp only [confusedUser, Bool.not_eq_true, decide_eq_false_iff_not]
    intro hh; linarith [hh.1]

/-- The `current_persona` argument never changes the selected persona. -/
theorem select_persona_ignores_current (c : ℚ) (cur : Option String) :
    select_persona c cur = select_persona c none := rfl

/-! ## Concrete instances used by witnesses -/

/-- A concrete capability environment: zero similarity, empty extractor
results, an LLM that always answers `"ok"`. -/
def env0 : Env where
  simFn := fun _ _ => 0
  upiFn := fun _ => []
  phoneFn := fun _ => []
  urlFn := fun _ => []
  llm := fun _ => some "ok"

/-- The default thresholds of `config.py`, written explicitly. -/
def settingsW : Settings := ⟨4/10, 4/10⟩

/-! ## Claims -/

/-- C5: `merge_intelligence` computes the per-field set union of the
four intelligence fields: merging `r` with itself yields sets equal to
those of `r` (idempotence), and `merge r1 r2` and `merge r2 r1` contain
exactly the same elements per field (commutativity up to set equality);
each field of the merge holds exactly the union of the inputs. -/
theorem claim5_merge_set_union (r r1 r2 : Intelligence) (x : String) :
    ((x ∈ (merge_intelligence r r).upiIds ↔ x ∈ r.upiIds) ∧
     (x ∈ (merge_intelligence r r).phoneNumbers ↔ x ∈ r.phoneNumbers) ∧
     (x ∈ (merge_intelligence r r).phishingLinks ↔ x ∈ r.phishingLinks) ∧
     (x ∈ (merge_intelligence r r).suspiciousKeywords ↔
       x ∈ r.suspiciousKeywords)) ∧
    ((x ∈ (merge_intelligence r1 r2).upiIds ↔
       x ∈ (merge_intelligence r2 r1).upiIds) ∧
     (x ∈ (merge_intelligence r1 r2).phoneNumbers ↔
       x ∈ (merge_intelligence r2 r1).phoneNumbers) ∧
     (x ∈ (merge_intelligence r1 r2).phishingLinks ↔
       x ∈ (merge_intelligence r2 r1).phishingLinks) ∧
     (x ∈ (merge_intelligence r1 r2).suspiciousKeywords ↔
       x ∈ (merge_intelligence r2 r1).suspiciousKeywords)) ∧
    ((x ∈ (merge_intelligence r1 r2).upiIds ↔
       x ∈ r1.upiIds ∨ x ∈ r2.upiIds) ∧
     (x ∈ (merge_intelligence r1 r2).phoneNumbers ↔
       x ∈ r1.phoneNumbers ∨ x ∈ r2.phoneNumbers) ∧
     (x ∈ (merge_intelligence r1 r2).phishingLinks ↔
       x ∈ r1.phishingLinks ∨ x ∈ r2.phishingLinks) ∧
     (x ∈ (merge_intelligence r1 r2).suspiciousKeywords ↔
       x ∈ r1.suspiciousKeywords ∨ x ∈ r2.suspiciousKeywords)) := by
  simp only [merge_intelligence, List.mem_dedup, List.mem_append]
  refine ⟨⟨?_, ?_, ?_, ?_⟩, ⟨?_, ?_, ?_, ?_⟩, ?_, ?_, ?_, ?_⟩ <;> tauto

/-- C10: `decide_mode` fails with an input-validation error exactly when
its confidence argument lies outside `[0,1]`; inside `[0,1]` it returns
`EXIT` below 0.25, `DEFLECTION` on `[0.25, 0.5)` and `NORMAL` on
`[0.5, 1]`. -/
theorem claim10_decide_mode (c : ℚ) :
    (¬(0 ≤ c ∧ c ≤ 1) →
      decide_mode c = .error "confidence must be between 0 and 1") ∧
    (0 ≤ c → c ≤ 1 →
      (c < 25/100 → decide_mode c = .ok "EXIT") ∧
      (25/100 ≤ c → c < 5/10 → decide_mode c = .ok "DEFLECTION") ∧
      (5/10 ≤ c → decide_mode c = .ok "NORMAL") ∧
      ∃ m, decide_mode c = .ok m) := by
  unfold decide_mode
  constructor
  · intro h
    rw [if_pos h]
  · intro h0 h1
    rw [if_neg (not_not_intro ⟨h0, h1⟩)]
    refine ⟨?_, ?_, ?_, ?_⟩
    · intro h
      rw [if_pos h]
    · intro ha hb
      rw [if_neg (by linarith), if_pos hb]
    · intro h
      rw [if_neg (by linarith), if_neg (by linarith)]
    · split_ifs <;> exact ⟨_, rfl⟩

/-- Witness for C10 at concrete confidences 0.3 (valid, DEFLECTION) and
1.5 (invalid, validation error). -/
theorem claim10_witness :
    decide_mode (3/10) = .ok "DEFLECTION" ∧
    decide_mode (3/2) = .error "confidence must be between 0 and 1" :=
  ⟨((claim10_decide_mode (3/10)).2 (by norm_num) (by norm_num)).2.1
      (by norm_num) (by norm_num),
   (claim10_decide_mode (3/2)).1 (by norm_num)⟩

/-- C3: the exit decision checks its three conditions in strict order —
confidence threshold, then intelligence-plus-three-turns, then the
15-turn cap — and reports the first true condition's reason; when all
three hold the reason is `confidence_threshold`. -/
theorem claim3_exit_precedence (settings : Settings) (s : SessionData) :
    (s.confidence ≤ settings.exit_confidence_threshold →
      should_exit settings s = (true, some "confidence_threshold")) ∧
    (¬ s.confidence ≤ settings.exit_confidence_threshold →
      (s.extracted.upiIds.length > 0 ∨ s.extracted.phoneNumbers.length > 0 ∨
        s.extracted.phishingLinks.length > 0) → s.turns ≥ 3 →
      should_exit settings s = (true, some "intelligence_collected")) ∧
    (¬ s.confidence ≤ settings.exit_confidence_threshold →
      ¬((s.extracted.upiIds.length > 0 ∨ s.extracted.phoneNumbers.length > 0 ∨
        s.extracted.phishingLinks.length > 0) ∧ s.turns ≥ 3) →
      s.turns ≥ 15 →
      should_exit settings s = (true, some "max_turns_reached")) ∧
    (¬ s.confidence ≤ settings.exit_confidence_threshold →
      ¬((s.extracted.upiIds.length > 0 ∨ s.extracted.phoneNumbers.length > 0 ∨
        s.extracted.phishingLinks.length > 0) ∧ s.turns ≥ 3) →
      ¬ s.turns ≥ 15 →
      should_exit settings s = (false, none)) ∧
    (s.confidence ≤ settings.exit_confidence_threshold →
      (s.extracted.upiIds.length > 0 ∨ s.extracted.phoneNumbers.length > 0 ∨
        s.extracted.phishingLinks.length > 0) → s.turns ≥ 3 → s.turns ≥ 15 →
      should_exit settings s = (true, some "confidence_threshold")) := by
  unfold should_exit
  refine ⟨?_, ?_, ?_, ?_, ?_⟩
  · intro h1
    rw [if_pos h1]
  · intro h1 h2 h3
    rw [if_neg h1, if_pos ⟨h2, h3⟩]
  · intro h1 h2 h3
    rw [if_neg h1, if_neg h2, if_pos h3]
  · intro h1 h2 h3
    rw [if_neg h1, if_neg h2, if_neg h3]
  · intro h1 _ _ _
    rw [if_pos h1]

/-- Witness for C3: a session satisfying all three exit conditions at
once still reports `confidence_threshold`. -/
theorem claim3_witness :
    should_exit settingsW
      { confidence := 3/10, turns := 20, completed := false,
        extracted := ⟨["scam@ybl"], [], [], []⟩, created_at := 0,
        last_activity := 0, current_persona := none, persona_history := [],
        behavior_patterns := ⟨0, 0⟩, message_history := [] } =
      (true, some "confidence_threshold") :=
  (claim3_exit_precedence settingsW _).2.2.2.2 (by norm_num [settingsW])
    (by simp) (by norm_num) (by norm_num)

/-- C6: persona selection is a pure function of confidence: the four
declared bands map `[0.7,1]` to `confused_user`, `[0.5,0.7)` to
`nervous_elder`, `[0.3,0.5)` to `over_polite` and `[0,0.3)` to
`tech_savvy`; shared boundaries 0.7/0.5/0.3 go to the higher band; a
band matches for every confidence in `[0,1]` (the default fallback is
unreachable there); the history argument never changes the result. -/
theorem claim6_persona_bands (c : ℚ) (cur : Option String) :
    select_persona c cur = select_persona c none ∧
    (7/10 ≤ c → c ≤ 1 → select_persona c cur = confusedUser) ∧
    (5/10 ≤ c → c < 7/10 → select_persona c cur = nervousElder) ∧
    (3/10 ≤ c → c < 5/10 → select_persona c cur = overPolite) ∧
    (0 ≤ c → c < 3/10 → select_persona c cur = techSavvy) ∧
    (0 ≤ c → c ≤ 1 → (matching_persona c).isSome = true) ∧
    (select_persona (7/10) cur = confusedUser ∧
     select_persona (5/10) cur = nervousElder ∧
     select_persona (3/10) cur = overPolite) := by
  refine ⟨rfl, ?_, ?_, ?_, ?_, ?_, ?_, ?_, ?_⟩
  · intro h1 h2
    unfold select_persona
    rw [matching_persona_band0 h1 h2]
    rfl
  · intro h1 h2
    unfold select_persona
    rw [matching_persona_band1 h1 h2]
    rfl
  · intro h1 h2
    unfold select_persona
    rw [matching_persona_band2 h1 h2]
    rfl
  · intro h1 h2
    unfold select_persona
    rw [matching_persona_band3 h1 h2]
    rfl
  · intro h0 h1
    rcases le_or_lt (7/10) c with h7 | h7
    · rw [matching_persona_band0 h7 h1]; rfl
    rcases le_or_lt (5/10) c with h5 | h5
    · rw [matching_persona_band1 h5 h7]; rfl
    rcases le_or_lt (3/10) c with h3 | h3
    · rw [matching_persona_band2 h3 h5]; rfl
    · rw [matching_persona_band3 h0 h3]; rfl
  · unfold select_persona
    rw [matching_persona_band0 (by norm_num) (by norm_num)]
    rfl
  · unfold select_persona
    rw [matching_persona_band1 (by norm_num) (by norm_num)]
    rfl
  · unfold select_persona
    rw [matching_persona_band2 (by norm_num) (by norm_num)]
    rfl

/-- Witness for C6 at confidence 0.5 with a non-trivial history
argument: the shared boundary selects the higher band, `nervous_elder`. -/
theorem claim6_witness :
    select_persona (5/10) (some "tech_savvy") = nervousElder :=
  ((claim6_persona_bands (5/10) (some "tech_savvy")).2.2.1
    (by norm_num) (by norm_num))

/-! ## Helper lemmas: decay monotonicity (for C8) -/

theorem update_confidence_anti (old : ℚ) {f1 f2 : Flags}
    {r1 r2 : Option RepetitionData} {e1 e2 : Option EscalationData}
    (h : decayOf f1 r1 e1 ≤ decayOf f2 r2 e2) :
    update_confidence old f2 r2 e2 ≤ update_confidence old f1 r1 e1 := by
  unfold update_confidence
  exact round2_mono (max_le_max (le_refl 0) (by linarith))

theorem contains_cons_ne {l : List String} {x a : String} (h : a ≠ x) :
    (x :: l).contains a = l.contains a := by
  simp [List.contains_cons, h]

theorem urgency_decay_le (flags : Flags) : urgency_decay flags ≤ 1/10 := by
  unfold urgency_decay; split <;> norm_num

theorem urgency_decay_cons_self (flags : Flags) :
    urgency_decay ("urgency" :: flags) = 1/10 := by
  unfold urgency_decay
  rw [if_pos (by simp)]

theorem urgency_decay_cons_ne (flags : Flags) {x : String}
    (h : ("urgency" : String) ≠ x) :
    urgency_decay (x :: flags) = urgency_decay flags := by
  unfold urgency_decay
  rw [contains_cons_ne h]

theorem threat_decay_le (flags : Flags) : threat_decay flags ≤ 2/10 := by
  unfold threat_decay; split <;> norm_num

theorem threat_decay_cons_self (flags : Flags) :
    threat_decay ("threat" :: flags) = 2/10 := by
  unfold threat_decay
  rw [if_pos (by simp)]

theorem threat_decay_cons_ne (flags : Flags) {x : String}
    (h : ("threat" : String) ≠ x) :
    threat_decay (x :: flags) = threat_decay flags := by
  unfold threat_decay
  rw [contains_cons_ne h]

theorem keyword_count_cons (flags : Flags) (x : String) :
    keyword_count (x :: flags) =
      if isKeywordFlag x then keyword_count flags + 1
      else keyword_count flags := by
  unfold keyword_count
  rw [List.filter_cons]
  split <;> simp

theorem keyword_decay_mono {f1 f2 : Flags}
    (h : keyword_count f1 ≤ keyword_count f2) :
    keyword_decay f1 ≤ keyword_decay f2 := by
  unfold keyword_decay
  split_ifs <;> first | (exfalso; omega) | norm_num

theorem keyword_count_cons_ge (flags : Flags) (x : String) :
    keyword_count flags ≤ keyword_count (x :: flags) := by
  rw [keyword_count_cons]
  split <;> omega

/-- A list-level `startswith`: every list is a prefix of itself followed
by anything. -/
theorem list_isPrefixOf_append (l t : List Char) :
    l.isPrefixOf (l ++ t) = true := by
  induction l with
  | nil => cases t <;> rfl
  | cons a as ih => simp [List.isPrefixOf, ih]

theorem isKeywordFlag_keyword (w : String) :
    isKeywordFlag ("keyword:" ++ w) = true := by
  unfold isKeywordFlag
  have hdata : ("keyword:" ++ w).toList = "keyword:".toList ++ w.toList := by
    show ("keyword:" ++ w).data = "keyword:".data ++ w.data
    exact String.data_append "keyword:" w
  rw [hdata]
  exact list_isPrefixOf_append _ _

theorem urgency_ne_keyword (w : String) :
    ("urgency" : String) ≠ "keyword:" ++ w := by
  intro h
  have hd : ("urgency" : String).data = ("keyword:" ++ w).data := by rw [h]
  rw [String.data_append] at hd
  have hlen := congrArg List.length hd
  rw [List.length_append] at hlen
  have h1 : ("urgency" : String).data.length = 7 := by decide
  have h2 : ("keyword:" : String).data.length = 8 := by decide
  omega

theorem threat_ne_keyword (w : String) :
    ("threat" : String) ≠ "keyword:" ++ w := by
  intro h
  have hd : ("threat" : String).data = ("keyword:" ++ w).data := by rw [h]
  rw [String.data_append] at hd
  have hlen := congrArg List.length hd
  rw [List.length_append] at hlen
  have h1 : ("threat" : String).data.length = 6 := by decide
  have h2 : ("keyword:" : String).data.length = 8 := by decide
  omega

theorem keyword_count_cons_urgency (flags : Flags) :
    keyword_count ("urgency" :: flags) = keyword_count flags := by
  rw [keyword_count_cons]
  rw [if_neg]
  intro h
  cases (by decide : isKeywordFlag "urgency" = false).symm.trans h

theorem keyword_count_cons_threat (flags : Flags) :
    keyword_count ("threat" :: flags) = keyword_count flags := by
  rw [keyword_count_cons]
  rw [if_neg]
  intro h
  cases (by decide : isKeywordFlag "threat" = false).symm.trans h

/-- Adding the `"urgency"` flag never decreases the decay. -/
theorem decayOf_cons_urgency (flags : Flags) (rep : Option RepetitionData)
    (esc : Option EscalationData) :
    decayOf flags rep esc ≤ decayOf ("urgency" :: flags) rep esc := by
  unfold decayOf
  have h1 := urgency_decay_le flags
  have h2 := urgency_decay_cons_self flags
  have h3 := keyword_decay_mono (le_of_eq (keyword_count_cons_urgency flags).symm)
  have h4 := threat_decay_cons_ne flags
    (show ("threat" : String) ≠ "urgency" by decide)
  linarith

/-- Adding the `"threat"` flag never decreases the decay. -/
theorem decayOf_cons_threat (flags : Flags) (rep : Option RepetitionData)
    (esc : Option EscalationData) :
    decayOf flags rep esc ≤ decayOf ("threat" :: flags) rep esc := by
  unfold decayOf
  have h1 := threat_decay_le flags
  have h2 := threat_decay_cons_self flags
  have h3 := keyword_decay_mono (le_of_eq (keyword_count_cons_threat flags).symm)
  have h4 := urgency_decay_cons_ne flags
    (show ("urgency" : String) ≠ "threat" by decide)
  linarith

/-- Adding a keyword flag never decreases the decay. -/
theorem decayOf_cons_keyword (flags : Flags) (w : String)
    (rep : Option RepetitionData) (esc : Option EscalationData) :
    decayOf flags rep esc ≤ decayOf (("keyword:" ++ w) :: flags) rep esc := by
  unfold decayOf
  have h1 := keyword_decay_mono (keyword_count_cons_ge flags ("keyword:" ++ w))
  have h2 := urgency_decay_cons_ne flags (urgency_ne_keyword w)
  have h3 := threat_decay_cons_ne flags (threat_ne_keyword w)
  linarith

/-- Adding a repetition signal never decreases the decay. -/
theorem decayOf_some_repetition (flags : Flags) (rd : RepetitionData)
    (esc : Option EscalationData) (h : 0 ≤ rd.similarity) :
    decayOf flags none esc ≤ decayOf flags (some rd) esc := by
  unfold decayOf
  have h1 : repetition_decay none = 0 := rfl
  have h2 := repetition_decay_nonneg (some rd)
    (fun rd' hh => by injection hh with hh'; rw [← hh']; exact h)
  linarith

/-- Adding an escalation signal never decreases the decay. -/
theorem decayOf_some_escalation (flags : Flags) (rep : Option RepetitionData)
    (ed : EscalationData) :
    decayOf flags rep none ≤ decayOf flags rep (some ed) := by
  unfold decayOf
  have h1 : escalation_decay none = 0 := rfl
  have h2 := escalation_decay_nonneg (some ed)
  linarith

/-- C8: the decay computed by `update_confidence` is monotone in the
flag/signal set — adding the urgency flag, the threat flag, another
keyword flag, a repetition signal or an escalation signal never
decreases the decay, so the resulting confidence never increases. -/
theorem claim8_decay_monotone (flags : Flags) (rep : Option RepetitionData)
    (esc : Option EscalationData) (old : ℚ) (w : String)
    (rd : RepetitionData) (ed : EscalationData) :
    (decayOf flags rep esc ≤ decayOf ("urgency" :: flags) rep esc ∧
      update_confidence old ("urgency" :: flags) rep esc ≤
        update_confidence old flags rep esc) ∧
    (decayOf flags rep esc ≤ decayOf ("threat" :: flags) rep esc ∧
      update_confidence old ("threat" :: flags) rep esc ≤
        update_confidence old flags rep esc) ∧
    (decayOf flags rep esc ≤ decayOf (("keyword:" ++ w) :: flags) rep esc ∧
      update_confidence old (("keyword:" ++ w) :: flags) rep esc ≤
        update_confidence old flags rep esc) ∧
    (0 ≤ rd.similarity →
      decayOf flags none esc ≤ decayOf flags (some rd) esc ∧
      update_confidence old flags (some rd) esc ≤
        update_confidence old flags none esc) ∧
    (decayOf flags rep none ≤ decayOf flags rep (some ed) ∧
      update_confidence old flags rep (some ed) ≤
        update_confidence old flags rep none) := by
  refine ⟨⟨decayOf_cons_urgency flags rep esc,
      update_confidence_anti old (decayOf_cons_urgency flags rep esc)⟩,
    ⟨decayOf_cons_threat flags rep esc,
      update_confidence_anti old (decayOf_cons_threat flags rep esc)⟩,
    ⟨decayOf_cons_keyword flags w rep esc,
      update_confidence_anti old (decayOf_cons_keyword flags w rep esc)⟩,
    fun h => ⟨decayOf_some_repetition flags rd esc h,
      update_confidence_anti old (decayOf_some_repetition flags rd esc h)⟩,
    ⟨decayOf_some_escalation flags rep ed,
      update_confidence_anti old (decayOf_some_escalation flags rep ed)⟩⟩

/-- Witness for C8 at a concrete flag list and signals. -/
theorem claim8_witness :
    0 ≤ (⟨true, 8/10, 1⟩ : RepetitionData).similarity ∧
    decayOf ["keyword:otp"] none none ≤
      decayOf ["keyword:otp"] (some ⟨true, 8/10, 1⟩) none ∧
    update_confidence 1 ["keyword:otp"] (some ⟨true, 8/10, 1⟩) none ≤
      update_confidence 1 ["keyword:otp"] none none :=
  ⟨by norm_num,
   ((claim8_decay_monotone ["keyword:otp"] none none 1 "otp"
      ⟨true, 8/10, 1⟩ ⟨true, some "final_warning", 0, 0⟩).2.2.2.1
      (by norm_num))⟩

/-- Projection equation for the scam verdict. -/
theorem detect_scam_is_scam_eq (env : Env) (settings : Settings)
    (msg : String) (hist : List String) (bp : BehaviorPatterns) :
    (detect_scam env settings msg hist bp).is_scam =
      decide (min 1 (((detect_scam env settings msg hist bp).flags.length : ℚ)
        * (2/10)) ≥ settings.scam_confidence_threshold) := rfl

/-- C1 (amended): for every old confidence in `[0,1]` that is a whole
multiple of 0.01 — as every stored session confidence is — and every
flag list, detector-shaped repetition result (similarity ≥ 0) and
escalation result, the decay is non-negative and `update_confidence`
returns a value in `[0,1]` no larger than the old confidence;
consequently a session's stored confidence starts at 1.0 and is
non-increasing across turns. -/
theorem claim1_confidence_decay :
    (∀ (old : ℚ) (flags : Flags) (rep : Option RepetitionData)
        (esc : Option EscalationData),
      (∀ rd, rep = some rd → 0 ≤ rd.similarity) →
      0 ≤ old → old ≤ 1 → TwoDecimal old →
      0 ≤ decayOf flags rep esc ∧
      update_confidence old flags rep esc ≤ old ∧
      0 ≤ update_confidence old flags rep esc ∧
      update_confidence old flags rep esc ≤ 1) ∧
    (∀ now : ℕ, (newSession now).confidence = 1 ∧
      SessionInv (newSession now)) ∧
    (∀ (env : Env) (settings : Settings) (sid : String) (s : SessionData)
        (msgs : List (String × ℕ)), SessionInv s →
      (runSession env settings sid s msgs).1.confidence ≤ s.confidence ∧
      SessionInv (runSession env settings sid s msgs).1) := by
  refine ⟨?_, ?_, ?_⟩
  · intro old flags rep esc hrep h0 h1 h2
    have hd := decayOf_nonneg flags rep esc hrep
    exact ⟨hd, update_confidence_le flags rep esc h0 h2 hd,
      update_confidence_nonneg old flags rep esc,
      update_confidence_le_one flags rep esc h1 hd⟩
  · intro now
    exact ⟨rfl, newSession_inv now⟩
  · intro env settings sid s msgs hInv
    exact runSession_confidence env settings sid s msgs hInv

/-- Counterexample to C1 as literally stated: for an old confidence in
`[0,1]` that is not a multiple of 0.01 (0.496) and the empty flag list,
rounding moves the result up to 0.5, strictly above the old value. -/
theorem claim1_counterexample :
    update_confidence (496/1000) [] none none = 1/2 ∧
    ¬ update_confidence (496/1000) [] none none ≤ 496/1000 := by
  have hdecay : decayOf [] none none = 0 := by
    unfold decayOf urgency_decay keyword_decay threat_decay repetition_decay
      escalation_decay keyword_count
    simp
  have hupd : update_confidence (496/1000) [] none none = 1/2 := by
    unfold update_confidence
    rw [hdecay, sub_zero, max_eq_right (by norm_num : (0:ℚ) ≤ 496/1000)]
    norm_num [round2, round_eq]
  exact ⟨hupd, by rw [hupd]; norm_num⟩

/-- Witness for C1 at concrete inputs: one `update_confidence` call with
a two-decimal old confidence, and the trace statement on a fresh
session. -/
theorem claim1_witness :
    (0 ≤ decayOf ["urgency"] none none ∧
      update_confidence 1 ["urgency"] none none ≤ 1 ∧
      0 ≤ update_confidence 1 ["urgency"] none none ∧
      update_confidence 1 ["urgency"] none none ≤ 1) ∧
    (runSession env0 settingsW "sid" (newSession 0)
      [("hello", 0)]).1.confidence ≤ (newSession 0).confidence := by
  constructor
  · exact claim1_confidence_decay.1 1 ["urgency"] none none
      (fun rd h => by cases h) (by norm_num) (by norm_num) ⟨100, by norm_num⟩
  · exact (claim1_confidence_decay.2.2 env0 settingsW "sid" (newSession 0)
      [("hello", 0)] (newSession_inv 0)).1

/-- C2: a turn whose scam verdict is false only refreshes the bounded
message history and the last-activity timestamp (confidence, turns,
patterns, persona state, extraction and completion are untouched), and
answers the constant pass-through response: no reply, not engaged, no
scam, reported confidence the constant 1.0. -/
theorem claim2_passthrough_frame (env : Env) (settings : Settings)
    (sid msg : String) (now : ℕ) (s : SessionData)
    (h : (detect_scam env settings msg
      (boundedAppend s.message_history msg).dropLast
      s.behavior_patterns).is_scam = false) :
    handle_message env settings sid msg now s =
      ({ s with last_activity := now
                message_history := boundedAppend s.message_history msg },
       { status := "success", reply := none, confidence := 1,
         session_id := sid, turns := s.turns,
         agent_engaged := false, scam_detected := false },
       false) :=
  handle_message_pass env settings sid msg now s h

/-- Witness for C2: a benign message on a fresh session is a pass-through
that reports the constant confidence 1. -/
theorem claim2_witness :
    handle_message env0 settingsW "sid" "z" 0 (newSession 0) =
      ({ newSession 0 with
           last_activity := 0
           message_history := boundedAppend (newSession 0).message_history "z" },
       { status := "success", reply := none, confidence := 1,
         session_id := "sid", turns := (newSession 0).turns,
         agent_engaged := false, scam_detected := false },
       false) := by
  apply claim2_passthrough_frame
  rw [detect_scam_is_scam_eq]
  have hfl : (detect_scam env0 settingsW "z"
      (boundedAppend (newSession 0).message_history "z").dropLast
      (newSession 0).behavior_patterns).flags = [] := by decide
  rw [hfl]
  apply decide_eq_false
  norm_num [settingsW, min_def]

/-- C9: in every response, the reply is non-null exactly when the agent
is engaged: the pass-through answers null/false, and every scam-flagged
branch answers a non-null string with `agent_engaged = true`. -/
theorem claim9_reply_iff_engaged (env : Env) (settings : Settings)
    (sid msg : String) (now : ℕ) (s : SessionData) :
    ((handle_message env settings sid msg now s).2.1.reply.isSome = true ↔
      (handle_message env settings sid msg now s).2.1.agent_engaged = true) ∧
    ((handle_message env settings sid msg now s).2.1.scam_detected = false →
      (handle_message env settings sid msg now s).2.1.reply = none ∧
      (handle_message env settings sid msg now s).2.1.agent_engaged = false) ∧
    ((handle_message env settings sid msg now s).2.1.scam_detected = true →
      (∃ t, (handle_message env settings sid msg now s).2.1.reply = some t) ∧
      (handle_message env settings sid msg now s).2.1.agent_engaged = true) := by
  cases hsc : (detect_scam env settings msg
      (boundedAppend s.message_history msg).dropLast
      s.behavior_patterns).is_scam with
  | false =>
    rw [handle_message_pass env settings sid msg now s hsc]
    simp
  | true =>
    rw [handle_message_scam env settings sid msg now s hsc]
    have h := engage_response env settings sid msg
      (scam_session_update env msg
        { s with last_activity := now
                 message_history := boundedAppend s.message_history msg }
        (detect_scam env settings msg
          (boundedAppend s.message_history msg).dropLast
          s.behavior_patterns))
    refine ⟨by rw [h.1, h.2.1], ?_, ?_⟩
    · intro hfalse
      rw [h.2.2] at hfalse
      cases hfalse
    · intro _
      exact ⟨Option.isSome_iff_exists.mp h.2.1, h.1⟩

/-- Witness for C9 on a concrete pass-through turn. -/
theorem claim9_witness :
    ((handle_message env0 settingsW "sid" "z" 0 (newSession 0)).2.1.reply.isSome
      = true ↔
    (handle_message env0 settingsW "sid" "z" 0 (newSession 0)).2.1.agent_engaged
      = true) :=
  (claim9_reply_iff_engaged env0 settingsW "sid" "z" 0 (newSession 0)).1

/-- C4: the completed flag is set at most once and never reset, and the
delivery callback fires at most once per session: a turn on an
already-completed session fires no exit and sends no callback, a turn
that sends the callback marks the session completed, and along any
message sequence the callback count is at most one (zero if the session
starts completed). -/
theorem claim4_completed_once :
    (∀ (env : Env) (settings : Settings) (sid msg : String) (now : ℕ)
        (s : SessionData),
      (s.completed = true →
        (handle_message env settings sid msg now s).1.completed = true ∧
        (handle_message env settings sid msg now s).2.2 = false) ∧
      ((handle_message env settings sid msg now s).2.2 = true →
        (handle_message env settings sid msg now s).1.completed = true)) ∧
    (∀ (env : Env) (settings : Settings) (sid : String) (s : SessionData)
        (msgs : List (String × ℕ)),
      (runSession env settings sid s msgs).2 ≤
        if s.completed then 0 else 1) ∧
    (∀ (env : Env) (settings : Settings) (sid : String) (s : SessionData)
        (msgs : List (String × ℕ)), s.completed = true →
      (runSession env settings sid s msgs).2 = 0) := by
  refine ⟨?_, ?_, ?_⟩
  · intro env settings sid msg now s
    exact ⟨fun h => ⟨handle_message_completed_mono env settings sid msg now s h,
        handle_message_no_callback_of_completed env settings sid msg now s h⟩,
      handle_message_callback_completed env settings sid msg now s⟩
  · intro env settings sid s msgs
    exact runSession_callback_bound env settings sid s msgs
  · intro env settings sid s msgs h
    have hb := runSession_callback_bound env settings sid s msgs
    rw [h] at hb
    simpa using hb

/-- Witness for C4: a completed session sends no callback on a further
turn, and a fresh session's trace sends at most one callback. -/
theorem claim4_witness :
    (handle_message env0 settingsW "sid" "z" 0
      { newSession 0 with completed := true }).2.2 = false ∧
    (runSession env0 settingsW "sid" (newSession 0) [("z", 0)]).2 ≤ 1 := by
  constructor
  · exact ((claim4_completed_once.1 env0 settingsW "sid" "z" 0
      { newSession 0 with completed := true }).1 rfl).2
  · have h := claim4_completed_once.2.1 env0 settingsW "sid" (newSession 0)
      [("z", 0)]
    simpa using h

/-! ## Helper lemmas: persona tracking (for C7) -/

theorem generate_reply_persona (env : Env) (c : ℚ) (msg : String)
    (cur : Option String) (ex : Intelligence) {rp : String × String}
    (h : generate_reply env c msg cur ex = some rp) :
    rp.2 = (select_persona c cur).persona_type.value := by
  unfold generate_reply at h
  cases hdm : decide_mode c with
  | error e => rw [hdm] at h; cases h
  | ok m =>
    rw [hdm] at h
    dsimp only at h
    cases hllm : env.llm (build_persona_prompt (select_persona c cur)
        (detect_topic msg) m msg) with
    | none => rw [hllm] at h; cases h
    | some r =>
      rw [hllm] at h
      injection h with h2
      rw [← h2]

theorem scam_session_update_current_persona (env : Env) (msg : String)
    (s1 : SessionData) (d : Detection) :
    (scam_session_update env msg s1 d).current_persona = s1.current_persona := rfl

theorem scam_session_update_persona_history (env : Env) (msg : String)
    (s1 : SessionData) (d : Detection) :
    (scam_session_update env msg s1 d).persona_history = s1.persona_history := rfl

theorem engage_persona (env : Env) (settings : Settings) (sid msg : String)
    (s2 : SessionData) :
    (engage env settings sid msg s2).1.persona_history = s2.persona_history ∧
    (engage env settings sid msg s2).1.current_persona = s2.current_persona ∨
    (∃ tr : PersonaTransition,
      (engage env settings sid msg s2).1.persona_history =
        s2.persona_history ++ [tr] ∧
      tr.fromPersona = s2.current_persona ∧
      some tr.toPersona ≠ s2.current_persona ∧
      (engage env settings sid msg s2).1.current_persona = some tr.toPersona ∧
      tr.toPersona = (select_persona s2.confidence
        s2.current_persona).persona_type.value ∧
      tr.turn = s2.turns ∧ tr.confidence = s2.confidence) := by
  unfold engage
  split
  · rename_i rp heq
    dsimp only
    split
    · left; exact ⟨rfl, rfl⟩
    · unfold track_persona
      split
      · rename_i hne
        right
        exact ⟨⟨s2.current_persona, rp.2, s2.turns, s2.confidence⟩,
          rfl, rfl, hne, rfl,
          generate_reply_persona env s2.confidence msg s2.current_persona
            s2.extracted heq, rfl, rfl⟩
      · left; exact ⟨rfl, rfl⟩
  · dsimp only
    split
    · left; exact ⟨rfl, rfl⟩
    · left; exact ⟨rfl, rfl⟩

/-- C7 (amended): a `{from, to, turn, confidence}` record is appended
and `currentPersona` updated exactly when the persona returned on a
continuing scam-flagged turn differs from the session's current
persona — including the initial selection on a session with no prior
persona, which IS logged as a transition with `from = null`.  At the
turn level, the persona history either stays unchanged or grows by
exactly one record whose `to` is the persona selected from the updated
confidence and differs from the previous current persona. -/
theorem claim7_persona_transition :
    (∀ (s : SessionData) (p : String),
      (some p ≠ s.current_persona →
        track_persona s p =
          { s with
            persona_history := s.persona_history ++
              [⟨s.current_persona, p, s.turns, s.confidence⟩]
            current_persona := some p }) ∧
      (some p = s.current_persona → track_persona s p = s) ∧
      (s.current_persona = none →
        (track_persona s p).persona_history =
          s.persona_history ++ [⟨none, p, s.turns, s.confidence⟩] ∧
        (track_persona s p).current_persona = some p)) ∧
    (∀ (env : Env) (settings : Settings) (sid msg : String) (now : ℕ)
        (s : SessionData),
      ((handle_message env settings sid msg now s).1.persona_history =
          s.persona_history ∧
        (handle_message env settings sid msg now s).1.current_persona =
          s.current_persona) ∨
      (∃ tr : PersonaTransition,
        (handle_message env settings sid msg now s).1.persona_history =
          s.persona_history ++ [tr] ∧
        tr.fromPersona = s.current_persona ∧
        some tr.toPersona ≠ s.current_persona ∧
        (handle_message env settings sid msg now s).1.current_persona =
          some tr.toPersona ∧
        tr.toPersona = (select_persona
          (handle_message env settings sid msg now s).1.confidence
          s.current_persona).persona_type.value)) := by
  constructor
  · intro s p
    have htrack : some p ≠ s.current_persona →
        track_persona s p =
          { s with
            persona_history := s.persona_history ++
              [⟨s.current_persona, p, s.turns, s.confidence⟩]
            current_persona := some p } := by
      intro h
      unfold track_persona
      rw [if_pos h]
    refine ⟨htrack, ?_, ?_⟩
    · intro h
      unfold track_persona
      rw [if_neg (not_not_intro h)]
    · intro h
      have hne : some p ≠ s.current_persona := by
        rw [h]; exact Option.some_ne_none p
      rw [htrack hne, h]
      exact ⟨rfl, rfl⟩
  · intro env settings sid msg now s
    cases hsc : (detect_scam env settings msg
        (boundedAppend s.message_history msg).dropLast
        s.behavior_patterns).is_scam with
    | false =>
      rw [handle_message_pass env settings sid msg now s hsc]
      left
      exact ⟨rfl, rfl⟩
    | true =>
      rw [handle_message_scam env settings sid msg now s hsc]
      rcases engage_persona env settings sid msg
        (scam_session_update env msg
          { s with last_activity := now
                   message_history := boundedAppend s.message_history msg }
          (detect_scam env settings msg
            (boundedAppend s.message_history msg).dropLast
            s.behavior_patterns)) with h | ⟨tr, h1, h2, h3, h4, h5, _, _⟩
      · left
        exact h
      · right
        refine ⟨tr, h1, h2, h3, h4, ?_⟩
        rw [← engage_confidence env settings sid msg
          (scam_session_update env msg
            { s with last_activity := now
                     message_history := boundedAppend s.message_history msg }
            (detect_scam env settings msg
              (boundedAppend s.message_history msg).dropLast
              s.behavior_patterns))] at h5
        exact h5

/-- Witness for C7: tracking a persona on a session with no prior
persona appends a `from = null` record and sets the current persona. -/
theorem claim7_witness :
    (track_persona (newSession 0) "confused_user").persona_history =
      (newSession 0).persona_history ++
        [⟨none, "confused_user", (newSession 0).turns,
          (newSession 0).confidence⟩] ∧
    (track_persona (newSession 0) "confused_user").current_persona =
      some "confused_user" :=
  (claim7_persona_transition.1 (newSession 0) "confused_user").2.2 rfl

/-- Counterexample to C7 as literally stated: on a continuing
scam-flagged turn of a fresh session with no prior persona, a
transition record IS appended to the persona history (with
`from = null`), contradicting "not logged as a transition". -/
theorem claim7_counterexample :
    (newSession 0).current_persona = none ∧
    (handle_message env0 settingsW "sid" "urgent account" 0
      (newSession 0)).1.persona_history =
      [⟨none, "confused_user", 1, 92/100⟩] := by
  refine ⟨rfl, ?_⟩
  have hfl : (detect_scam env0 settingsW "urgent account"
      (boundedAppend (newSession 0).message_history "urgent account").dropLast
      (newSession 0).behavior_patterns).flags =
      ["keyword:urgent", "keyword:account"] := by decide
  have hrepD : (detect_scam env0 settingsW "urgent account"
      (boundedAppend (newSession 0).message_history "urgent account").dropLast
      (newSession 0).behavior_patterns).repetition = ⟨false, 0, 0⟩ := by decide
  have hescD : (detect_scam env0 settingsW "urgent account"
      (boundedAppend (newSession 0).message_history "urgent account").dropLast
      (newSession 0).behavior_patterns).escalation =
      ⟨false, none, 0, 0⟩ := by decide
  have hscam : (detect_scam env0 settingsW "urgent account"
      (boundedAppend (newSession 0).message_history "urgent account").dropLast
      (newSession 0).behavior_patterns).is_scam = true := by
    rw [detect_scam_is_scam_eq, hfl]
    apply decide_eq_true
    norm_num [settingsW, min_def]
  rw [handle_message_scam env0 settingsW "sid" "urgent account" 0
    (newSession 0) hscam]
  set D := detect_scam env0 settingsW "urgent account"
      (boundedAppend (newSession 0).message_history "urgent account").dropLast
      (newSession 0).behavior_patterns with hD
  set S2 := scam_session_update env0 "urgent account"
      { newSession 0 with
        last_activity := 0
        message_history := boundedAppend (newSession 0).message_history
          "urgent account" } D with hS2
  have hconf2 : S2.confidence = 92/100 := by
    rw [hS2, scam_session_update_confidence, hfl, hrepD, hescD]
    unfold update_confidence
    have hdec : decayOf ["keyword:urgent", "keyword:account"]
        (some ⟨false, 0, 0⟩) (some ⟨false, none, 0, 0⟩) = 8/100 := by
      have h1 : (["keyword:urgent", "keyword:account"] :
          List String).contains "urgency" = false := by decide
      have h2 : (["keyword:urgent", "keyword:account"] :
          List String).contains "threat" = false := by decide
      have h3 : keyword_count ["keyword:urgent", "keyword:account"] = 2 := by
        decide
      unfold decayOf urgency_decay keyword_decay threat_decay repetition_decay
        escalation_decay
      rw [h1, h2, h3]
      norm_num
    rw [hdec]
    simp only [show (newSession 0).confidence = (1:ℚ) from rfl]
    rw [max_eq_right (by norm_num : (0:ℚ) ≤ 1 - 8/100)]
    norm_num [round2, round_eq]
  have hcompl2 : S2.completed = false := rfl
  have hturns2 : S2.turns = 1 := rfl
  have hcur2 : S2.current_persona = none := rfl
  have hph2 : S2.persona_history = [] := rfl
  have hupi : S2.extracted.upiIds = [] := by rw [hS2, hD]; decide
  have hphn : S2.extracted.phoneNumbers = [] := by rw [hS2, hD]; decide
  have hurl : S2.extracted.phishingLinks = [] := by rw [hS2, hD]; decide
  have hse : should_exit settingsW S2 = (false, none) := by
    unfold should_exit
    rw [if_neg (show ¬ S2.confidence ≤ settingsW.exit_confidence_threshold
      from by rw [hconf2]; norm_num [settingsW])]
    rw [if_neg (show ¬((S2.extracted.upiIds.length > 0 ∨
        S2.extracted.phoneNumbers.length > 0 ∨
        S2.extracted.phishingLinks.length > 0) ∧ S2.turns ≥ 3) from by
      rw [hupi, hphn, hurl]
      simp)]
    rw [if_neg (show ¬ S2.turns ≥ 15 from by rw [hturns2]; norm_num)]
  have hgen : generate_reply env0 S2.confidence "urgent account"
      S2.current_persona S2.extracted = some ("ok", "confused_user") := by
    rw [hconf2, hcur2]
    unfold generate_reply
    have hdm : decide_mode (92/100) = Except.ok "NORMAL" := by
      unfold decide_mode
      rw [if_neg (not_not_intro ⟨by norm_num, by norm_num⟩),
        if_neg (by norm_num), if_neg (by norm_num)]
    rw [hdm]
    dsimp only
    have hsel : select_persona (92/100) none = confusedUser := by
      unfold select_persona
      rw [matching_persona_band0 (by norm_num) (by norm_num)]
      rfl
    rw [hsel]
    rfl
  unfold engage
  rw [hse]
  rw [if_neg (show ¬(((false, none) :
      Bool × Option String).1 = true ∧ ¬S2.completed = true) from by simp)]
  rw [hgen]
  dsimp only
  unfold track_persona
  rw [if_pos (show some "confused_user" ≠ S2.current_persona from by
    rw [hcur2]; simp)]
  dsimp only
  rw [hph2, hcur2, hturns2, hconf2]
  simp
end HoneyPot
